import Mathlib

/-!
Shallow embedding of the micro network-server bootstrap
(src/server/server.go, package server) and proofs about its
configuration resolution, command assembly and lifecycle.

External collaborators (the cli context, the plugin registry entries,
the router, the service run loop) are modelled at their interface
boundary: the cli context becomes a pair of lookup functions, each
plugin becomes its contributed flag/sub-command lists, and the
router/service calls become externally chosen results. The body of
run is embedded as a trace of the observable calls it makes, in
source order, together with the process outcome.
-/

namespace MicroServer

/-- Default service name, from the package-level variable Name (server.go line 19). -/
def defaultName : String := "go.micro.server"

/-- Default bind address, from the package-level variable Address (server.go line 21). -/
def defaultAddress : String := ":8087"

/-- Default router (gossip) address, from the package-level variable Router (server.go line 23). -/
def defaultRouter : String := ":9093"

/-- Default network id, from the package-level variable Network (server.go line 25). -/
def defaultNetwork : String := "local"

/-- Nanoseconds in one second: the factor applied by multiplying a Go
time.Duration count by time.Second. -/
def nanosPerSecond : Int := 1000000000

/-- Reduction of an integer into the signed 64-bit range by
two's-complement wrap-around, the semantics of Go arithmetic on int64
values such as time.Duration: the literals are 2 to the 63rd and 2 to
the 64th power. -/
def toInt64 (n : Int) : Int :=
  (n + 9223372036854775808) % 18446744073709551616 - 9223372036854775808

/-- Interface boundary of the cli context: string-valued lookups
(ctx.String) and integer-valued lookups (ctx.Int). An absent or
undeclared key yields the zero value, which the model expresses by
the caller choosing the empty string or 0 for that key. -/
structure Ctx where
  strLookup : String → String
  intLookup : String → Int

/-- The resolved process configuration: the four string settings plus
the two registration durations (in nanoseconds) passed to the Service. -/
structure Config where
  name : String
  address : String
  router : String
  network : String
  registerTTL : Int
  registerInterval : Int
deriving DecidableEq, Repr

/-- Configuration resolution, embedding the override block of run
(server.go lines 81-100): each string setting is replaced when a guard
lookup is non-empty, and the two durations are taken unconditionally
from integer lookups, converted to time.Duration and multiplied by
time.Second. Both the conversion and the multiplication are int64
operations in Go, so each is reduced into the signed 64-bit range by
toInt64, wrapping on overflow exactly as the source does. The router
and network guards read keys router_address and network_address while
the replacement values come from the keys router and network, exactly
as the source does. -/
def resolveConfig (ctx : Ctx) : Config :=
  { name := if (ctx.strLookup "server_name").length > 0 then ctx.strLookup "server_name" else defaultName
    address := if (ctx.strLookup "address").length > 0 then ctx.strLookup "address" else defaultAddress
    router := if (ctx.strLookup "router_address").length > 0 then ctx.strLookup "router" else defaultRouter
    network := if (ctx.strLookup "network_address").length > 0 then ctx.strLookup "network" else defaultNetwork
    registerTTL := toInt64 (toInt64 (ctx.intLookup "register_ttl") * nanosPerSecond)
    registerInterval := toInt64 (toInt64 (ctx.intLookup "register_interval") * nanosPerSecond) }

/-- A command-line flag as declared in Commands: name, usage text and
environment variable list, mirroring cli.StringFlag. -/
structure Flag where
  name : String
  usage : String
  envVars : List String
deriving DecidableEq, Repr

/-- An opaque sub-command contributed by a plugin, identified by name. -/
structure SubCommand where
  name : String
deriving DecidableEq, Repr

/-- Modelled from the spec: a registered plugin entry of the plugin
registry (the Plugins function and the plugin interface live outside
src/). Per the spec it contributes a flag list and a sub-command list
and has an init hook; the hook body is opaque, so the model keeps only
the contributed lists and records hook invocations as trace events. -/
structure Plugin where
  flags : List Flag
  commands : List SubCommand

/-- Observable events of one invocation of run, in the order the
source performs them: plugin init hooks, configuration resolution,
component construction, router start, the blocking service run loop,
router stop, error logging and process exit. -/
inductive Event where
  | pluginInit (i : Nat)
  | configResolved (c : Config)
  | newService
  | newRouter
  | newServer
  | routerStart
  | serviceRun
  | routerStop
  | logError (msg : String)
  | exit (code : Nat)
deriving DecidableEq, Repr

/-- Externally determined results of the collaborator calls made by one
invocation of run: the router Start result, the service Run result and
the router Stop result. Errors are their messages. -/
structure ExtBehavior where
  routerStart : Except String Unit
  serviceRun : Except String Unit
  routerStop : Except String Unit

/-- Embedding of the srv.start method (server.go lines 49-58): it
forwards the router's Start result unchanged. -/
def srvStart (ext : ExtBehavior) : Except String Unit :=
  ext.routerStart

/-- Embedding of the srv.stop method (server.go lines 61-70): a router
Stop error is wrapped as a failed-to-stop-router error. -/
def srvStop (ext : ExtBehavior) : Except String Unit :=
  match ext.routerStop with
  | Except.error e => Except.error ("failed to stop router: " ++ e)
  | Except.ok _ => Except.ok ()

/-- Process outcome of one invocation of run: either os.Exit with a
code, or normal completion of the function body. -/
inductive ProcResult where
  | exited (code : Nat)
  | completed
deriving DecidableEq, Repr

/-- Events of run up to and including component construction
(server.go lines 77-111): every plugin's Init in registration order,
then the override block producing the resolved configuration, then
construction of the Service, the Router and the network Server. -/
def preTrace (ctx : Ctx) (plugins : List Plugin) : List Event :=
  ((List.range plugins.length).map Event.pluginInit) ++
    [Event.configResolved (resolveConfig ctx), Event.newService,
      Event.newRouter, Event.newServer]

/-- Embedding of the run function (server.go lines 73-133): after the
construction prefix it starts the router, exiting with status 1 on
failure; otherwise it blocks in service.Run, exiting with status 1 on
error without stopping the router; otherwise it calls srv.stop,
exiting with status 1 if that fails, and completes normally otherwise.
Informational log lines are not modelled as events; error log lines
are, because their wrapped messages are part of the observable error
behavior. -/
def run (ctx : Ctx) (plugins : List Plugin) (ext : ExtBehavior) :
    List Event × ProcResult :=
  let pre := preTrace ctx plugins
  match srvStart ext with
  | Except.error e =>
      (pre ++ [Event.routerStart, Event.logError ("failed to start: " ++ e),
        Event.exit 1], ProcResult.exited 1)
  | Except.ok _ =>
      match ext.serviceRun with
      | Except.error e =>
          (pre ++ [Event.routerStart, Event.serviceRun,
            Event.logError ("failed with error " ++ e), Event.exit 1],
            ProcResult.exited 1)
      | Except.ok _ =>
          match srvStop ext with
          | Except.error e =>
              (pre ++ [Event.routerStart, Event.serviceRun, Event.routerStop,
                Event.logError ("failed to stop: " ++ e), Event.exit 1],
                ProcResult.exited 1)
          | Except.ok _ =>
              (pre ++ [Event.routerStart, Event.serviceRun, Event.routerStop],
                ProcResult.completed)

/-- The three base flags declared by the server command
(server.go lines 139-155). -/
def baseFlags : List Flag :=
  [{ name := "address", usage := "Set the micro server address :8083",
      envVars := ["MICRO_SERVER_ADDRESS"] },
    { name := "router_address", usage := "Set the micro router address :9093",
      envVars := ["MICRO_ROUTER_ADDRESS"] },
    { name := "network_address", usage := "Set the micro network id :local",
      envVars := ["MICRO_NETWORK_ADDRESS"] }]

/-- The assembled server command surface: its name, usage, flag list
and sub-command list. -/
structure ServerCommand where
  name : String
  usage : String
  flags : List Flag
  subcommands : List SubCommand
deriving DecidableEq, Repr

/-- The base server command before plugin contributions
(server.go lines 136-160). -/
def baseCommand : ServerCommand :=
  { name := "server", usage := "Run the micro network server",
    flags := baseFlags, subcommands := [] }

/-- One iteration of the plugin loop of Commands (server.go lines
162-170): a plugin's sub-commands and flags are appended when their
lists are non-empty. -/
def addPlugin (c : ServerCommand) (p : Plugin) : ServerCommand :=
  let c1 := if p.commands.length > 0 then
    { c with subcommands := c.subcommands ++ p.commands } else c
  if p.flags.length > 0 then { c1 with flags := c1.flags ++ p.flags } else c1

/-- Embedding of the Commands function (server.go lines 135-173): it
returns the singleton list holding the base command extended by every
registered plugin's contributions in registration order. -/
def Commands (plugins : List Plugin) : List ServerCommand :=
  [plugins.foldl addPlugin baseCommand]

/-- What the command action returns to the command-line layer: either
the process already exited inside run, or the action returned an
error value to its caller. -/
inductive ActionOutcome where
  | exitedProcess (code : Nat)
  | returned (err : Option String)
deriving DecidableEq, Repr

/-- Embedding of the Action closure of the server command
(server.go lines 156-159): it calls run and then returns nil, so the
caller observes an error value only if run returns at all, and that
value is always nil. -/
def serverAction (ctx : Ctx) (plugins : List Plugin) (ext : ExtBehavior) :
    ActionOutcome :=
  match (run ctx plugins ext).2 with
  | ProcResult.exited c => ActionOutcome.exitedProcess c
  | ProcResult.completed => ActionOutcome.returned none

/-- Branch-dependent tail of the run trace, after component
construction: the same four branches as run, isolated so that the
trace decomposes as a prefix plus this suffix. -/
def runSuffix (ext : ExtBehavior) : List Event :=
  match srvStart ext with
  | Except.error e =>
      [Event.routerStart, Event.logError ("failed to start: " ++ e), Event.exit 1]
  | Except.ok _ =>
      match ext.serviceRun with
      | Except.error e =>
          [Event.routerStart, Event.serviceRun,
            Event.logError ("failed with error " ++ e), Event.exit 1]
      | Except.ok _ =>
          match srvStop ext with
          | Except.error e =>
              [Event.routerStart, Event.serviceRun, Event.routerStop,
                Event.logError ("failed to stop: " ++ e), Event.exit 1]
          | Except.ok _ =>
              [Event.routerStart, Event.serviceRun, Event.routerStop]

/-- Branch-dependent process outcome of run, isolated like runSuffix. -/
def runResult (ext : ExtBehavior) : ProcResult :=
  match srvStart ext with
  | Except.error _ => ProcResult.exited 1
  | Except.ok _ =>
      match ext.serviceRun with
      | Except.error _ => ProcResult.exited 1
      | Except.ok _ =>
          match srvStop ext with
          | Except.error _ => ProcResult.exited 1
          | Except.ok _ => ProcResult.completed

/-- The run trace always decomposes as the construction prefix followed
by the branch suffix, and the outcome is the branch outcome. -/
theorem run_eq (ctx : Ctx) (plugins : List Plugin) (ext : ExtBehavior) :
    run ctx plugins ext = (preTrace ctx plugins ++ runSuffix ext, runResult ext) := by
  cases hrs : ext.routerStart with
  | error e => simp [run, srvStart, runSuffix, runResult, hrs]
  | ok u =>
    cases hsr : ext.serviceRun with
    | error e => simp [run, srvStart, runSuffix, runResult, hrs, hsr]
    | ok v =>
      cases hst : ext.routerStop with
      | error e =>
          simp [run, srvStart, srvStop, runSuffix, runResult, hrs, hsr, hst]
      | ok w =>
          simp [run, srvStart, srvStop, runSuffix, runResult, hrs, hsr, hst]

/-- Length of the construction prefix: one init event per plugin, then
resolution and three constructions. -/
theorem preTrace_length (ctx : Ctx) (plugins : List Plugin) :
    (preTrace ctx plugins).length = plugins.length + 4 := by
  simp [preTrace]

/-- The i-th event of the construction prefix is the i-th plugin init. -/
theorem preTrace_getElem_init (ctx : Ctx) (plugins : List Plugin) {i : Nat}
    (h : i < plugins.length) :
    (preTrace ctx plugins)[i]? = some (Event.pluginInit i) := by
  rw [preTrace, List.getElem?_append_left (by simpa using h)]
  simp [List.getElem?_range h]

/-- The four events after all plugin inits are resolution and the three
component constructions, in source order. -/
theorem preTrace_getElem_tail (ctx : Ctx) (plugins : List Plugin) :
    (preTrace ctx plugins)[plugins.length]? =
        some (Event.configResolved (resolveConfig ctx)) ∧
      (preTrace ctx plugins)[plugins.length + 1]? = some Event.newService ∧
      (preTrace ctx plugins)[plugins.length + 2]? = some Event.newRouter ∧
      (preTrace ctx plugins)[plugins.length + 3]? = some Event.newServer := by
  refine ⟨?_, ?_, ?_, ?_⟩ <;>
    · rw [preTrace, List.getElem?_append_right (by simp)]
      simp

/-- Distinct indices give distinct plugin init events. -/
theorem pluginInit_injective : Function.Injective Event.pluginInit := by
  intro a b h
  injection h

/-- Every event of the branch suffix is a router start, a service run,
a router stop, an error log or an exit: in particular no plugin init,
resolution or construction event occurs there. -/
theorem runSuffix_mem (ext : ExtBehavior) {e : Event} (he : e ∈ runSuffix ext) :
    e = Event.routerStart ∨ e = Event.serviceRun ∨ e = Event.routerStop ∨
      (∃ m, e = Event.logError m) ∨ e = Event.exit 1 := by
  cases hrs : ext.routerStart with
  | error a => simp [runSuffix, srvStart, hrs] at he; aesop
  | ok u =>
    cases hsr : ext.serviceRun with
    | error a => simp [runSuffix, srvStart, hrs, hsr] at he; aesop
    | ok v =>
      cases hst : ext.routerStop with
      | error a => simp [runSuffix, srvStart, srvStop, hrs, hsr, hst] at he; aesop
      | ok w => simp [runSuffix, srvStart, srvStop, hrs, hsr, hst] at he; aesop

/-- A plugin init event never occurs in the branch suffix. -/
theorem pluginInit_not_mem_runSuffix (ext : ExtBehavior) (i : Nat) :
    Event.pluginInit i ∉ runSuffix ext := by
  intro h
  rcases runSuffix_mem ext h with h | h | h | ⟨m, h⟩ | h <;> simp at h

/-- A router stop event never occurs in the construction prefix. -/
theorem routerStop_not_mem_preTrace (ctx : Ctx) (plugins : List Plugin) :
    Event.routerStop ∉ preTrace ctx plugins := by
  simp [preTrace]

/-- The construction prefix contains each registered plugin's init
event exactly once. -/
theorem preTrace_count_init (ctx : Ctx) (plugins : List Plugin) {i : Nat}
    (h : i < plugins.length) :
    (preTrace ctx plugins).count (Event.pluginInit i) = 1 := by
  rw [preTrace, List.count_append]
  have h1 : ((List.range plugins.length).map Event.pluginInit).count
      (Event.pluginInit i) = 1 := by
    rw [List.count_map_of_injective _ _ pluginInit_injective]
    exact List.count_eq_one_of_mem (List.nodup_range _) (List.mem_range.mpr h)
  have h2 : ([Event.configResolved (resolveConfig ctx), Event.newService,
      Event.newRouter, Event.newServer]).count (Event.pluginInit i) = 0 := by
    rw [List.count_eq_zero]
    simp
  omega

/-- Reading the run trace at an index inside the construction prefix. -/
theorem run_getElem_pre (ctx : Ctx) (plugins : List Plugin) (ext : ExtBehavior)
    {j : Nat} (h : j < plugins.length + 4) :
    (run ctx plugins ext).1[j]? = (preTrace ctx plugins)[j]? := by
  rw [run_eq ctx plugins ext]
  exact List.getElem?_append_left (by rw [preTrace_length]; exact h)

/-- Reading the run trace at an offset into the branch suffix. -/
theorem run_getElem_suffix (ctx : Ctx) (plugins : List Plugin)
    (ext : ExtBehavior) (k : Nat) :
    (run ctx plugins ext).1[plugins.length + 4 + k]? = (runSuffix ext)[k]? := by
  rw [run_eq ctx plugins ext]
  show (preTrace ctx plugins ++ runSuffix ext)[plugins.length + 4 + k]? = _
  rw [List.getElem?_append_right (by rw [preTrace_length]; omega)]
  rw [preTrace_length, Nat.add_sub_cancel_left]

/-- A cli context in which every lookup is absent: every string lookup
yields the empty string and every integer lookup yields 0. -/
def emptyCtx : Ctx :=
  { strLookup := fun _ => "", intLookup := fun _ => 0 }

/-- A cli context in which only the router-address flag was supplied,
with value :7777; the undeclared router key reads as empty. -/
def ctxC1 : Ctx :=
  { strLookup := fun k => if k = "router_address" then ":7777" else "",
    intLookup := fun _ => 0 }

/-- A cli context in which only the router-address flag was supplied,
with value :8888; the undeclared router key reads as empty. -/
def ctxC2 : Ctx :=
  { strLookup := fun k => if k = "router_address" then ":8888" else "",
    intLookup := fun _ => 0 }

/-- A plugin contributing nothing, used to exercise init ordering. -/
def onePlugin : Plugin :=
  { flags := [], commands := [] }

/-- External behavior in which the router starts and stops cleanly and
the service run loop returns without error. -/
def extAllOk : ExtBehavior :=
  { routerStart := Except.ok (), serviceRun := Except.ok (),
    routerStop := Except.ok () }

/-- External behavior in which the service run loop fails. -/
def extRunFails : ExtBehavior :=
  { routerStart := Except.ok (), serviceRun := Except.error "boom",
    routerStop := Except.ok () }

/-- External behavior in which the router fails to start. -/
def extStartFails : ExtBehavior :=
  { routerStart := Except.error "nope", serviceRun := Except.ok (),
    routerStop := Except.ok () }

/-- External behavior in which the router fails to stop. -/
def extStopFails : ExtBehavior :=
  { routerStart := Except.ok (), serviceRun := Except.ok (),
    routerStop := Except.error "x" }

/-- C1 (corrected): the claimed per-field precedence rule holds for the
service name (key server_name) and the bind address (key address), but
for the router address and network id the guard key (router_address,
network_address) differs from the value key (router, network); with
every lookup absent the resolved Configuration is exactly the declared
defaults with zero registration durations. -/
theorem c1_resolution_precedence (ctx : Ctx) :
    (resolveConfig ctx).name =
        (if (ctx.strLookup "server_name").length > 0 then
          ctx.strLookup "server_name" else defaultName) ∧
      (resolveConfig ctx).address =
        (if (ctx.strLookup "address").length > 0 then
          ctx.strLookup "address" else defaultAddress) ∧
      (resolveConfig ctx).router =
        (if (ctx.strLookup "router_address").length > 0 then
          ctx.strLookup "router" else defaultRouter) ∧
      (resolveConfig ctx).network =
        (if (ctx.strLookup "network_address").length > 0 then
          ctx.strLookup "network" else defaultNetwork) ∧
      ((∀ k, ctx.strLookup k = "") → (∀ k, ctx.intLookup k = 0) →
        resolveConfig ctx =
          { name := "go.micro.server", address := ":8087", router := ":9093",
            network := "local", registerTTL := 0, registerInterval := 0 }) := by
  refine ⟨rfl, rfl, rfl, rfl, fun hs hi => ?_⟩
  simp [resolveConfig, hs, hi, defaultName, defaultAddress, defaultRouter,
    defaultNetwork, toInt64, nanosPerSecond]

/-- C1 witness: the defaults-only scenario evaluated at the empty
context through the general theorem. -/
theorem c1_witness :
    resolveConfig emptyCtx =
      { name := "go.micro.server", address := ":8087", router := ":9093",
        network := "local", registerTTL := 0, registerInterval := 0 } :=
  (c1_resolution_precedence emptyCtx).2.2.2.2 (fun _ => rfl) (fun _ => rfl)

/-- C1 counterexample: with the router-address lookup :7777 and the
router lookup empty, the resolved router address is the empty string:
it is neither the supplied value :7777 nor the default :9093, so the
claimed precedence rule fails for the router setting at this input. -/
theorem c1_counterexample :
    ctxC1.strLookup "router_address" = ":7777" ∧
      ctxC1.strLookup "router" = "" ∧
      (resolveConfig ctxC1).router = "" ∧
      ((resolveConfig ctxC1).router == ":7777") = false ∧
      ((resolveConfig ctxC1).router == ":9093") = false := by
  decide

/-- C2 (corrected): the keys router and network read for the override
values are not among the declared flag names, while router_address and
network_address are; when the guard lookup is non-empty and the value
lookup is empty the resolved setting becomes the empty string, which
is not the declared default; and in every invocation the resolved
router (resp. network) setting is either the router (resp. network)
lookup or the default, never the router_address (resp. network_address)
value. -/
theorem c2_mismatched_override_keys (ctx : Ctx) :
    ("router_address" ∈ baseFlags.map Flag.name ∧
        "network_address" ∈ baseFlags.map Flag.name ∧
        (baseFlags.map Flag.name).count "router" = 0 ∧
        (baseFlags.map Flag.name).count "network" = 0) ∧
      (0 < (ctx.strLookup "router_address").length →
        ctx.strLookup "router" = "" →
        (resolveConfig ctx).router = "" ∧
          (resolveConfig ctx).router ≠ defaultRouter) ∧
      (0 < (ctx.strLookup "network_address").length →
        ctx.strLookup "network" = "" →
        (resolveConfig ctx).network = "" ∧
          (resolveConfig ctx).network ≠ defaultNetwork) ∧
      ((resolveConfig ctx).router = ctx.strLookup "router" ∨
        (resolveConfig ctx).router = defaultRouter) ∧
      ((resolveConfig ctx).network = ctx.strLookup "network" ∨
        (resolveConfig ctx).network = defaultNetwork) := by
  refine ⟨by decide, fun h1 h2 => ?_, fun h1 h2 => ?_, ?_, ?_⟩
  · constructor
    · simp [resolveConfig, if_pos h1, h2]
    · simp [resolveConfig, if_pos h1, h2, defaultRouter]
  · constructor
    · simp [resolveConfig, if_pos h1, h2]
    · simp [resolveConfig, if_pos h1, h2, defaultNetwork]
  · by_cases h : 0 < (ctx.strLookup "router_address").length <;>
      simp [resolveConfig, h]
  · by_cases h : 0 < (ctx.strLookup "network_address").length <;>
      simp [resolveConfig, h]

/-- C2 witness: with the router-address lookup :8888 and the router
lookup empty, the resolved router address is the empty string and
differs from the default. -/
theorem c2_witness :
    0 < (ctxC2.strLookup "router_address").length ∧
      ctxC2.strLookup "router" = "" ∧
      ((resolveConfig ctxC2).router = "" ∧
        (resolveConfig ctxC2).router ≠ defaultRouter) :=
  ⟨by decide, rfl, (c2_mismatched_override_keys ctxC2).2.1 (by decide) rfl⟩

/-- C2 counterexample: with the router-address lookup :8888 and the
router lookup empty, the resolved router address does not fall back to
the default :9093 as claimed: it becomes the empty string. -/
theorem c2_counterexample :
    0 < (ctxC2.strLookup "router_address").length ∧
      ctxC2.strLookup "router" = "" ∧
      (resolveConfig ctxC2).router = "" ∧
      ((resolveConfig ctxC2).router == ":9093") = false := by
  decide

/-- Reducing an integer already inside the signed 64-bit range is the
identity. -/
theorem toInt64_eq_self {m : Int} (h1 : -9223372036854775808 ≤ m)
    (h2 : m ≤ 9223372036854775807) : toInt64 m = m := by
  unfold toInt64
  have h3 : (m + 9223372036854775808) % 18446744073709551616 =
      m + 9223372036854775808 :=
    Int.emod_eq_of_lt (by omega) (by omega)
  omega

/-- A cli context in which the register_ttl lookup is ten billion,
whose duration in nanoseconds exceeds the int64 range. -/
def ctxC7 : Ctx :=
  { strLookup := fun _ => "",
    intLookup := fun k => if k = "register_ttl" then 10000000000 else 0 }

/-- C7 (corrected): the registration TTL and interval of the resolved
configuration are always the register_ttl and register_interval
integer lookups converted to N seconds with int64 (time.Duration)
wrap-around semantics, used unconditionally with no precedence check
against any default: whenever N seconds expressed in nanoseconds fits
in the signed 64-bit range the duration is exactly N seconds, and an
absent (zero) lookup yields a zero duration. -/
theorem c7_register_durations (ctx : Ctx) :
    (resolveConfig ctx).registerTTL =
        toInt64 (toInt64 (ctx.intLookup "register_ttl") * nanosPerSecond) ∧
      (resolveConfig ctx).registerInterval =
        toInt64 (toInt64 (ctx.intLookup "register_interval") * nanosPerSecond) ∧
      (-9223372036854775808 ≤ ctx.intLookup "register_ttl" * nanosPerSecond →
        ctx.intLookup "register_ttl" * nanosPerSecond ≤ 9223372036854775807 →
        (resolveConfig ctx).registerTTL =
          ctx.intLookup "register_ttl" * nanosPerSecond) ∧
      (-9223372036854775808 ≤ ctx.intLookup "register_interval" * nanosPerSecond →
        ctx.intLookup "register_interval" * nanosPerSecond ≤ 9223372036854775807 →
        (resolveConfig ctx).registerInterval =
          ctx.intLookup "register_interval" * nanosPerSecond) ∧
      (ctx.intLookup "register_ttl" = 0 →
        (resolveConfig ctx).registerTTL = 0) ∧
      (ctx.intLookup "register_interval" = 0 →
        (resolveConfig ctx).registerInterval = 0) := by
  refine ⟨rfl, rfl, fun h1 h2 => ?_, fun h1 h2 => ?_, fun h => ?_, fun h => ?_⟩
  · have hn1 : -9223372036854775808 ≤ ctx.intLookup "register_ttl" := by
      simp only [nanosPerSecond] at h1 h2
      omega
    have hn2 : ctx.intLookup "register_ttl" ≤ 9223372036854775807 := by
      simp only [nanosPerSecond] at h1 h2
      omega
    show toInt64 (toInt64 (ctx.intLookup "register_ttl") * nanosPerSecond) = _
    rw [toInt64_eq_self hn1 hn2]
    exact toInt64_eq_self h1 h2
  · have hn1 : -9223372036854775808 ≤ ctx.intLookup "register_interval" := by
      simp only [nanosPerSecond] at h1 h2
      omega
    have hn2 : ctx.intLookup "register_interval" ≤ 9223372036854775807 := by
      simp only [nanosPerSecond] at h1 h2
      omega
    show toInt64 (toInt64 (ctx.intLookup "register_interval") * nanosPerSecond) = _
    rw [toInt64_eq_self hn1 hn2]
    exact toInt64_eq_self h1 h2
  · show toInt64 (toInt64 (ctx.intLookup "register_ttl") * nanosPerSecond) = 0
    rw [h]
    decide
  · show toInt64 (toInt64 (ctx.intLookup "register_interval") * nanosPerSecond) = 0
    rw [h]
    decide

/-- C7 witness: at the empty context both registration durations
resolve to zero. -/
theorem c7_witness :
    emptyCtx.intLookup "register_ttl" = 0 ∧
      emptyCtx.intLookup "register_interval" = 0 ∧
      (resolveConfig emptyCtx).registerTTL = 0 ∧
      (resolveConfig emptyCtx).registerInterval = 0 :=
  ⟨rfl, rfl, (c7_register_durations emptyCtx).2.2.2.2.1 rfl,
    (c7_register_durations emptyCtx).2.2.2.2.2 rfl⟩

/-- C7 counterexample: a register_ttl lookup of ten billion seconds
overflows int64 when converted to nanoseconds, so the registration TTL
passed to the Service is a wrapped negative duration, not the claimed
N seconds. -/
theorem c7_counterexample :
    ctxC7.intLookup "register_ttl" = 10000000000 ∧
      10000000000 * nanosPerSecond = 10000000000000000000 ∧
      (resolveConfig ctxC7).registerTTL = -8446744073709551616 ∧
      (resolveConfig ctxC7).registerTTL ≠
        ctxC7.intLookup "register_ttl" * nanosPerSecond := by
  refine ⟨rfl, by decide, by decide, by decide⟩

/-- C9 (confirmed): the server_name key read by run is not among the
names of the three base flags declared by the server command, and a
non-empty server_name lookup overrides the service name while an empty
one leaves the default go.micro.server. -/
theorem c9_server_name_lookup (ctx : Ctx) :
    (baseFlags.map Flag.name).count "server_name" = 0 ∧
      (resolveConfig ctx).name =
        (if (ctx.strLookup "server_name").length > 0 then
          ctx.strLookup "server_name" else "go.micro.server") :=
  ⟨by decide, rfl⟩

/-- C3 (corrected): in every invocation of run, the i-th registered
plugin's init hook is the i-th trace event, so the hooks run exactly
once each, in registration order, before configuration resolution and
before any component construction; configuration resolution completes
after all plugin init hooks, at trace position n for n registered
plugins, followed by the Service, Router and network Server
constructions. -/
theorem c3_init_before_resolution_and_construction (ctx : Ctx)
    (plugins : List Plugin) (ext : ExtBehavior) (i : Nat)
    (h : i < plugins.length) :
    (run ctx plugins ext).1[i]? = some (Event.pluginInit i) ∧
      (run ctx plugins ext).1[plugins.length]? =
        some (Event.configResolved (resolveConfig ctx)) ∧
      (run ctx plugins ext).1[plugins.length + 1]? = some Event.newService ∧
      (run ctx plugins ext).1[plugins.length + 2]? = some Event.newRouter ∧
      (run ctx plugins ext).1[plugins.length + 3]? = some Event.newServer ∧
      (run ctx plugins ext).1.count (Event.pluginInit i) = 1 := by
  have ht := preTrace_getElem_tail ctx plugins
  refine ⟨?_, ?_, ?_, ?_, ?_, ?_⟩
  · rw [run_getElem_pre ctx plugins ext (by omega)]
    exact preTrace_getElem_init ctx plugins h
  · rw [run_getElem_pre ctx plugins ext (by omega)]
    exact ht.1
  · rw [run_getElem_pre ctx plugins ext (by omega)]
    exact ht.2.1
  · rw [run_getElem_pre ctx plugins ext (by omega)]
    exact ht.2.2.1
  · rw [run_getElem_pre ctx plugins ext (by omega)]
    exact ht.2.2.2
  · rw [run_eq ctx plugins ext]
    show (preTrace ctx plugins ++ runSuffix ext).count (Event.pluginInit i) = 1
    rw [List.count_append, preTrace_count_init ctx plugins h,
      List.count_eq_zero.mpr (pluginInit_not_mem_runSuffix ext i)]

/-- C3 witness: with one registered plugin, its init hook is the first
trace event, resolution is the second, and the constructions follow. -/
theorem c3_witness :
    0 < [onePlugin].length ∧
      ((run emptyCtx [onePlugin] extAllOk).1[0]? = some (Event.pluginInit 0) ∧
        (run emptyCtx [onePlugin] extAllOk).1[1]? =
          some (Event.configResolved (resolveConfig emptyCtx)) ∧
        (run emptyCtx [onePlugin] extAllOk).1[2]? = some Event.newService ∧
        (run emptyCtx [onePlugin] extAllOk).1[3]? = some Event.newRouter ∧
        (run emptyCtx [onePlugin] extAllOk).1[4]? = some Event.newServer ∧
        (run emptyCtx [onePlugin] extAllOk).1.count (Event.pluginInit 0) = 1) :=
  ⟨by decide,
    c3_init_before_resolution_and_construction emptyCtx [onePlugin] extAllOk 0
      (by decide)⟩

/-- C3 counterexample: with one registered plugin, the plugin init
event sits at trace position 0 and the configuration-resolution event
at position 1, so the init hook runs strictly before resolution
completes, refuting the claim that resolution completes before any
init hook is invoked. -/
theorem c3_counterexample :
    (run emptyCtx [onePlugin] extAllOk).1.indexOf (Event.pluginInit 0) = 0 ∧
      (run emptyCtx [onePlugin] extAllOk).1.indexOf
        (Event.configResolved (resolveConfig emptyCtx)) = 1 ∧
      (run emptyCtx [onePlugin] extAllOk).1.indexOf (Event.pluginInit 0) <
        (run emptyCtx [onePlugin] extAllOk).1.indexOf
          (Event.configResolved (resolveConfig emptyCtx)) := by
  decide

/-- C4 (confirmed): when the router started and the service run loop
returns an error, run exits the process with status 1 and the router
Stop call never happens: no router-stop event occurs anywhere in the
trace, while the run-loop and exit events do. -/
theorem c4_runloop_error_skips_stop (ctx : Ctx) (plugins : List Plugin)
    (ext : ExtBehavior) (e : String)
    (hstart : ext.routerStart = Except.ok ())
    (hrun : ext.serviceRun = Except.error e) :
    Event.routerStop ∉ (run ctx plugins ext).1 ∧
      (run ctx plugins ext).2 = ProcResult.exited 1 ∧
      Event.serviceRun ∈ (run ctx plugins ext).1 ∧
      Event.exit 1 ∈ (run ctx plugins ext).1 := by
  have htr : (run ctx plugins ext).1 = preTrace ctx plugins ++
      [Event.routerStart, Event.serviceRun,
        Event.logError ("failed with error " ++ e), Event.exit 1] := by
    simp [run, srvStart, hstart, hrun]
  have hres : (run ctx plugins ext).2 = ProcResult.exited 1 := by
    simp [run, srvStart, hstart, hrun]
  refine ⟨?_, hres, ?_, ?_⟩
  · rw [htr]
    intro hmem
    rcases List.mem_append.mp hmem with hp | hs
    · exact routerStop_not_mem_preTrace ctx plugins hp
    · simp at hs
  · rw [htr]
    simp
  · rw [htr]
    simp

/-- C4 witness: with no plugins and a failing run loop, the trace has
no router-stop event and the process exits with status 1. -/
theorem c4_witness :
    extRunFails.routerStart = Except.ok () ∧
      extRunFails.serviceRun = Except.error "boom" ∧
      (Event.routerStop ∉ (run emptyCtx [] extRunFails).1 ∧
        (run emptyCtx [] extRunFails).2 = ProcResult.exited 1 ∧
        Event.serviceRun ∈ (run emptyCtx [] extRunFails).1 ∧
        Event.exit 1 ∈ (run emptyCtx [] extRunFails).1) :=
  ⟨rfl, rfl, c4_runloop_error_skips_stop emptyCtx [] extRunFails "boom" rfl rfl⟩

/-- C5 (confirmed): when the router started and the service run loop
returns successfully, the router Stop call happens exactly once,
directly after the run-loop event; the process completes successfully
exactly when Stop succeeds, and a Stop error is propagated wrapped as
a failed-to-stop-router message, logged and followed by exit status 1. -/
theorem c5_stop_after_successful_run (ctx : Ctx) (plugins : List Plugin)
    (ext : ExtBehavior)
    (hstart : ext.routerStart = Except.ok ())
    (hrun : ext.serviceRun = Except.ok ()) :
    (run ctx plugins ext).1.count Event.routerStop = 1 ∧
      (run ctx plugins ext).1[plugins.length + 5]? = some Event.serviceRun ∧
      (run ctx plugins ext).1[plugins.length + 6]? = some Event.routerStop ∧
      (ext.routerStop = Except.ok () →
        (run ctx plugins ext).2 = ProcResult.completed) ∧
      (∀ e, ext.routerStop = Except.error e →
        srvStop ext = Except.error ("failed to stop router: " ++ e) ∧
          (run ctx plugins ext).2 = ProcResult.exited 1 ∧
          Event.logError ("failed to stop: " ++ ("failed to stop router: " ++ e))
            ∈ (run ctx plugins ext).1) := by
  have hsuf5 := run_getElem_suffix ctx plugins ext 1
  have hsuf6 := run_getElem_suffix ctx plugins ext 2
  cases hst : ext.routerStop with
  | ok w =>
    have hsu : runSuffix ext =
        [Event.routerStart, Event.serviceRun, Event.routerStop] := by
      simp [runSuffix, srvStart, srvStop, hstart, hrun, hst]
    refine ⟨?_, ?_, ?_, fun _ => ?_, fun e he => nomatch he⟩
    · rw [run_eq ctx plugins ext]
      show (preTrace ctx plugins ++ runSuffix ext).count Event.routerStop = 1
      rw [List.count_append,
        List.count_eq_zero.mpr (routerStop_not_mem_preTrace ctx plugins), hsu]
      rfl
    · rw [show plugins.length + 5 = plugins.length + 4 + 1 from rfl, hsuf5, hsu]
      rfl
    · rw [show plugins.length + 6 = plugins.length + 4 + 2 from rfl, hsuf6, hsu]
      rfl
    · simp [run, srvStart, srvStop, hstart, hrun, hst]
  | error e0 =>
    have hsu : runSuffix ext =
        [Event.routerStart, Event.serviceRun, Event.routerStop,
          Event.logError ("failed to stop: " ++ ("failed to stop router: " ++ e0)),
          Event.exit 1] := by
      simp [runSuffix, srvStart, srvStop, hstart, hrun, hst]
    refine ⟨?_, ?_, ?_, fun hok => ?_, fun e he => ?_⟩
    · rw [run_eq ctx plugins ext]
      show (preTrace ctx plugins ++ runSuffix ext).count Event.routerStop = 1
      rw [List.count_append,
        List.count_eq_zero.mpr (routerStop_not_mem_preTrace ctx plugins), hsu]
      rfl
    · rw [show plugins.length + 5 = plugins.length + 4 + 1 from rfl, hsuf5, hsu]
      rfl
    · rw [show plugins.length + 6 = plugins.length + 4 + 2 from rfl, hsuf6, hsu]
      rfl
    · exact Except.noConfusion hok
    · injection he with he0
      subst he0
      refine ⟨by simp [srvStop, hst], ?_, ?_⟩
      · simp [run, srvStart, srvStop, hstart, hrun, hst]
      · rw [run_eq ctx plugins ext]
        show _ ∈ preTrace ctx plugins ++ runSuffix ext
        rw [hsu]
        simp

/-- C5 witness: with no plugins, a clean start and run loop and a
failing router Stop, the stop event occurs exactly once after the run
loop, the wrapped error message is produced and the process exits with
status 1. -/
theorem c5_witness :
    extStopFails.routerStart = Except.ok () ∧
      extStopFails.serviceRun = Except.ok () ∧
      extStopFails.routerStop = Except.error "x" ∧
      (run emptyCtx [] extStopFails).1.count Event.routerStop = 1 ∧
      (run emptyCtx [] extStopFails).1[5]? = some Event.serviceRun ∧
      (run emptyCtx [] extStopFails).1[6]? = some Event.routerStop ∧
      srvStop extStopFails =
        Except.error ("failed to stop router: " ++ "x") ∧
      (run emptyCtx [] extStopFails).2 = ProcResult.exited 1 ∧
      Event.logError ("failed to stop: " ++ ("failed to stop router: " ++ "x"))
        ∈ (run emptyCtx [] extStopFails).1 := by
  have h := c5_stop_after_successful_run emptyCtx [] extStopFails rfl rfl
  have h2 := h.2.2.2.2 "x" rfl
  exact ⟨rfl, rfl, rfl, h.1, h.2.1, h.2.2.1, h2.1, h2.2.1, h2.2.2⟩

/-- C6 (confirmed): when the router fails to start, run exits the
process with status 1 without ever calling router Stop or entering the
service run loop, logging a failed-to-start error. -/
theorem c6_start_failure_skips_everything (ctx : Ctx) (plugins : List Plugin)
    (ext : ExtBehavior) (e : String)
    (hstart : ext.routerStart = Except.error e) :
    Event.routerStop ∉ (run ctx plugins ext).1 ∧
      Event.serviceRun ∉ (run ctx plugins ext).1 ∧
      (run ctx plugins ext).2 = ProcResult.exited 1 ∧
      Event.logError ("failed to start: " ++ e) ∈ (run ctx plugins ext).1 := by
  have htr : (run ctx plugins ext).1 = preTrace ctx plugins ++
      [Event.routerStart, Event.logError ("failed to start: " ++ e),
        Event.exit 1] := by
    simp [run, srvStart, hstart]
  have hres : (run ctx plugins ext).2 = ProcResult.exited 1 := by
    simp [run, srvStart, hstart]
  refine ⟨?_, ?_, hres, ?_⟩
  · rw [htr]
    intro hmem
    rcases List.mem_append.mp hmem with hp | hs
    · exact routerStop_not_mem_preTrace ctx plugins hp
    · simp at hs
  · rw [htr]
    intro hmem
    rcases List.mem_append.mp hmem with hp | hs
    · simp [preTrace] at hp
    · simp at hs
  · rw [htr]
    simp

/-- C6 witness: with no plugins and a router that fails to start, the
trace has neither a router-stop nor a run-loop event and the process
exits with status 1. -/
theorem c6_witness :
    extStartFails.routerStart = Except.error "nope" ∧
      (Event.routerStop ∉ (run emptyCtx [] extStartFails).1 ∧
        Event.serviceRun ∉ (run emptyCtx [] extStartFails).1 ∧
        (run emptyCtx [] extStartFails).2 = ProcResult.exited 1 ∧
        Event.logError ("failed to start: " ++ "nope")
          ∈ (run emptyCtx [] extStartFails).1) :=
  ⟨rfl, c6_start_failure_skips_everything emptyCtx [] extStartFails "nope" rfl⟩

/-- C10 (confirmed): the server command action either never returns,
because run terminated the process with exit status 1 on one of the
fatal paths, or it returns nil: no caller of the action ever observes
a non-nil error value. -/
theorem c10_action_returns_nil (ctx : Ctx) (plugins : List Plugin)
    (ext : ExtBehavior) :
    serverAction ctx plugins ext = ActionOutcome.returned none ∨
      serverAction ctx plugins ext = ActionOutcome.exitedProcess 1 := by
  cases hrs : ext.routerStart with
  | error e =>
    right
    simp [serverAction, run, srvStart, hrs]
  | ok u =>
    cases hsr : ext.serviceRun with
    | error e =>
      right
      simp [serverAction, run, srvStart, hrs, hsr]
    | ok v =>
      cases hst : ext.routerStop with
      | error e =>
        right
        simp [serverAction, run, srvStart, srvStop, hrs, hsr, hst]
      | ok w =>
        left
        simp [serverAction, run, srvStart, srvStop, hrs, hsr, hst]

/-- One plugin-loop iteration always appends the plugin's sub-commands
and flags, since appending an empty list is the identity. -/
theorem addPlugin_eq (c : ServerCommand) (p : Plugin) :
    addPlugin c p = { c with
      flags := c.flags ++ p.flags,
      subcommands := c.subcommands ++ p.commands } := by
  have hc : p.commands.length > 0 ∨ p.commands = [] := by
    rcases hpc : p.commands with _ | ⟨x, xs⟩ <;> simp
  have hf : p.flags.length > 0 ∨ p.flags = [] := by
    rcases hpf : p.flags with _ | ⟨x, xs⟩ <;> simp
  unfold addPlugin
  rcases hc with hc | hc <;> rcases hf with hf | hf <;> simp [hc, hf]

/-- Folding the plugin loop over any starting command appends every
plugin's flags and sub-commands in registration order. -/
theorem foldl_addPlugin (ps : List Plugin) (c : ServerCommand) :
    ps.foldl addPlugin c = { c with
      flags := c.flags ++ (ps.map Plugin.flags).flatten,
      subcommands := c.subcommands ++ (ps.map Plugin.commands).flatten } := by
  induction ps generalizing c with
  | nil => simp
  | cons p ps ih =>
    rw [List.foldl_cons, ih, addPlugin_eq]
    simp

/-- C8 (confirmed): for every plugin registry, Commands returns exactly
one command, whose flag list is the three base flags followed by every
plugin's flags in registration order and whose sub-command list is
every plugin's sub-commands in registration order, both without
deduplication: each flag or sub-command occurs as many times in the
assembled command as in the base list plus all contributions together,
so contributions of two different plugins are both present. -/
theorem c8_command_assembly (plugins : List Plugin) :
    Commands plugins =
        [{ name := "server",
           usage := "Run the micro network server",
           flags := baseFlags ++ (plugins.map Plugin.flags).flatten,
           subcommands := (plugins.map Plugin.commands).flatten }] ∧
      (∀ (f : Flag) (cmd : ServerCommand), cmd ∈ Commands plugins →
        cmd.flags.count f =
          baseFlags.count f + ((plugins.map Plugin.flags).flatten).count f) ∧
      (∀ (s : SubCommand) (cmd : ServerCommand), cmd ∈ Commands plugins →
        cmd.subcommands.count s = ((plugins.map Plugin.commands).flatten).count s) := by
  have h : Commands plugins =
      [{ name := "server",
         usage := "Run the micro network server",
         flags := baseFlags ++ (plugins.map Plugin.flags).flatten,
         subcommands := (plugins.map Plugin.commands).flatten }] := by
    rw [Commands, foldl_addPlugin]
    simp [baseCommand]
  refine ⟨h, fun f cmd hcmd => ?_, fun s cmd hcmd => ?_⟩
  · rw [h, List.mem_singleton] at hcmd
    subst hcmd
    simp [List.count_append]
  · rw [h, List.mem_singleton] at hcmd
    subst hcmd
    simp

/-- A flag contributed by a demonstration plugin. -/
def demoFlag : Flag :=
  { name := "debug", usage := "enable debug output", envVars := [] }

/-- A sub-command contributed by a demonstration plugin. -/
def demoSub : SubCommand :=
  { name := "status" }

/-- A demonstration plugin contributing one flag and one sub-command. -/
def demoPlugin : Plugin :=
  { flags := [demoFlag], commands := [demoSub] }

/-- The command assembled from registering the demonstration plugin
twice, written out explicitly. -/
def demoCommand : ServerCommand :=
  { name := "server", usage := "Run the micro network server",
    flags := baseFlags ++ [demoFlag, demoFlag],
    subcommands := [demoSub, demoSub] }

/-- C8 witness: registering the demonstration plugin twice yields a
command carrying its flag twice and its sub-command twice, after the
three base flags, showing order preservation and no deduplication. -/
theorem c8_witness :
    demoCommand ∈ Commands [demoPlugin, demoPlugin] ∧
      demoCommand.flags.count demoFlag =
        baseFlags.count demoFlag +
          (([demoPlugin, demoPlugin].map Plugin.flags).flatten).count demoFlag ∧
      demoCommand.flags.count demoFlag = 2 ∧
      demoCommand.subcommands.count demoSub =
        (([demoPlugin, demoPlugin].map Plugin.commands).flatten).count demoSub ∧
      demoCommand.subcommands.count demoSub = 2 :=
  ⟨by decide,
    (c8_command_assembly [demoPlugin, demoPlugin]).2.1 demoFlag demoCommand
      (by decide),
    by decide,
    (c8_command_assembly [demoPlugin, demoPlugin]).2.2 demoSub demoCommand
      (by decide),
    by decide⟩

end MicroServer
